import Mathlib

/-!
Verification of the names2stats package (names2stats.go): a sandboxed
stat-streaming pipeline that maps file names to per-file metadata records
(size, modification time, classified file type) and streams them as one
JSON object per line, failing fast on the first error.

The Go source is shallowly embedded: machine integers become `Int`/`Nat`,
`iter.Seq` sequences become `List`, fallible calls return a value paired
with `Option Err` exactly as Go returns `(value, error)` pairs, and the
JSON-line writer is modelled by the list of encoded objects it writes
together with the error it returns.
-/

/-- Errors surfaced by the pipeline (the spec's error kinds relevant to
resolution and streaming; Go's opaque `error` values are modelled by this
closed enumeration). -/
inductive Err where
  | pathEscapesRoot
  | nameNotFound
  | statUnavailable
  deriving DecidableEq, Repr

/-- Go: `type FileType = asn1.Enumerated` (an integer code). -/
abbrev FileType := Int

/-- Go: `FileTypeUnspecified FileType = 0`. -/
def FileTypeUnspecified : FileType := 0

/-- Go: `FileTypeBlck FileType = 104`. -/
def FileTypeBlck : FileType := 104

/-- Go: `FileTypeChar FileType = 103`. -/
def FileTypeChar : FileType := 103

/-- Go: `FileTypeFldr FileType = 105`. -/
def FileTypeFldr : FileType := 105

/-- Go: `FileTypeRglr FileType = 100`. -/
def FileTypeRglr : FileType := 100

/-- Go: `FileTypeSyml FileType = 102`. -/
def FileTypeSyml : FileType := 102

/-- Go: `FileTypePipe FileType = 106`. -/
def FileTypePipe : FileType := 106

/-- Go: `FileTypeSock FileType = 109`. -/
def FileTypeSock : FileType := 109

/-- Go: `type FileTypeToString func(FileType) string`. -/
abbrev FileTypeToString := FileType → String

/-- Go: `type FileTypeToStringMap map[FileType]string`, modelled as an
association list (the map literal in the source lists its entries in this
order). -/
abbrev FileTypeToStringMap := List (FileType × String)

/-- Go map indexing `m[typ]` with the comma-ok form: `some` when the key is
present, `none` otherwise. -/
def FileTypeToStringMap.get? (m : FileTypeToStringMap) (k : FileType) : Option String :=
  (m.find? (fun p => p.1 == k)).map (fun p => p.2)

/-- Go: the package-level `fileTypeToStringMap` literal. -/
def fileTypeToStringMap : FileTypeToStringMap :=
  [ (FileTypeUnspecified, "UNKNOWN FILE TYPE")
  , (FileTypeBlck, "block special")
  , (FileTypeChar, "character special")
  , (FileTypeFldr, "directory")
  , (FileTypeRglr, "regular file")
  , (FileTypeSyml, "symbolic link")
  , (FileTypePipe, "FIFO")
  , (FileTypeSock, "socket")
  ]

/-- Go: `var FileTypeToStringMapDefault = fileTypeToStringMap`. -/
def FileTypeToStringMapDefault : FileTypeToStringMap := fileTypeToStringMap

/-- Go: `func (m FileTypeToStringMap) ToFileTypeToString() FileTypeToString`.
When the key is absent it returns `m[FileTypeUnspecified]`; Go map indexing
without the ok-flag yields the zero value `""` when that key is absent too,
hence `getD ""`. -/
def FileTypeToStringMap.ToFileTypeToString (m : FileTypeToStringMap) : FileTypeToString :=
  fun typ =>
    match m.get? typ with
    | some val => val
    | none => (m.get? FileTypeUnspecified).getD ""

/-- Go: `var FileTypeToStringDefault = FileTypeToStringMapDefault.ToFileTypeToString()`. -/
def FileTypeToStringDefault : FileTypeToString :=
  FileTypeToStringMapDefault.ToFileTypeToString

/-- Go: `type UnixtimeUs int64` (microseconds since the Unix epoch). -/
abbrev UnixtimeUs := Int

/-- Model of Go `time.Time` at microsecond resolution: the calendar
timestamp denoted by a count of microseconds since the Unix epoch
(`time.UnixMicro`). -/
structure Time where
  unixMicro : Int
  deriving DecidableEq, Repr

/-- Go: `func (u UnixtimeUs) ToTime() time.Time { return time.UnixMicro(int64(u)) }`. -/
def UnixtimeUs.ToTime (u : UnixtimeUs) : Time := ⟨u⟩

/-- Go `io/fs` mode-bit constants (uint32 masks), as used by the source. -/
def ModeDir : Nat := 2 ^ 31

/-- Go `fs.ModeSymlink`. -/
def ModeSymlink : Nat := 2 ^ 27

/-- Go `fs.ModeDevice`. -/
def ModeDevice : Nat := 2 ^ 26

/-- Go `fs.ModeNamedPipe`. -/
def ModeNamedPipe : Nat := 2 ^ 25

/-- Go `fs.ModeSocket`. -/
def ModeSocket : Nat := 2 ^ 24

/-- Go `fs.ModeCharDevice`. -/
def ModeCharDevice : Nat := 2 ^ 21

/-- Go `fs.ModeIrregular`. -/
def ModeIrregular : Nat := 2 ^ 19

/-- Go `fs.ModeType = ModeDir | ModeSymlink | ModeNamedPipe | ModeSocket |
ModeDevice | ModeCharDevice | ModeIrregular`. -/
def ModeType : Nat :=
  ModeDir ||| ModeSymlink ||| ModeNamedPipe ||| ModeSocket |||
    ModeDevice ||| ModeCharDevice ||| ModeIrregular

/-- Go: `type FileMode struct{ fs.FileMode }` — a platform file-mode bit
pattern (uint32 in Go, modelled as `Nat`). -/
structure FileMode where
  mode : Nat
  deriving DecidableEq, Repr

/-- Go `io/fs`: `func (m FileMode) IsRegular() bool { return m&ModeType == 0 }`,
called by the source as `m.FileMode.IsRegular()`. -/
def FileMode.IsRegular (m : FileMode) : Bool := m.mode &&& ModeType == 0

/-- Go `io/fs`: `func (m FileMode) IsDir() bool { return m&ModeDir != 0 }`,
called by the source as `m.FileMode.IsDir()`. -/
def FileMode.IsDir (m : FileMode) : Bool := m.mode &&& ModeDir != 0

/-- Go: `func (m FileMode) IsSymlink() bool`. -/
def FileMode.IsSymlink (m : FileMode) : Bool := m.mode &&& ModeSymlink != 0

/-- Go: `func (m FileMode) IsNamedPipe() bool`. -/
def FileMode.IsNamedPipe (m : FileMode) : Bool := m.mode &&& ModeNamedPipe != 0

/-- Go: `func (m FileMode) IsSocket() bool`. -/
def FileMode.IsSocket (m : FileMode) : Bool := m.mode &&& ModeSocket != 0

/-- Go: `func (m FileMode) IsCharDevice() bool`. -/
def FileMode.IsCharDevice (m : FileMode) : Bool := m.mode &&& ModeCharDevice != 0

/-- Go: `func (m FileMode) IsDevice() bool`. -/
def FileMode.IsDevice (m : FileMode) : Bool := m.mode &&& ModeDevice != 0

/-- Go: `func (m FileMode) IsBlockDevice() bool` — device bit set and
char-device bit not set. -/
def FileMode.IsBlockDevice (m : FileMode) : Bool :=
  m.IsDevice && !m.IsCharDevice

/-- Go: `func (m FileMode) ToFileType() FileType` — the first-match switch. -/
def FileMode.ToFileType (m : FileMode) : FileType :=
  if m.IsRegular then FileTypeRglr
  else if m.IsDir then FileTypeFldr
  else if m.IsSymlink then FileTypeSyml
  else if m.IsNamedPipe then FileTypePipe
  else if m.IsSocket then FileTypeSock
  else if m.IsCharDevice then FileTypeChar
  else if m.IsBlockDevice then FileTypeBlck
  else FileTypeUnspecified

/-- Go: `type BasicStatJson struct` — the JSON-line object; field tags are
`path`, `size`, `modified_time`, `file_type` respectively. -/
structure BasicStatJson where
  Path : String
  Size : Int
  Modified : Time
  FileType : String
  deriving DecidableEq, Repr

/-- Go: `type BasicStat struct` — the central per-file record. -/
structure BasicStat where
  Path : String
  Size : Int
  Modified : UnixtimeUs
  FileType : FileType
  deriving DecidableEq, Repr

/-- Go: `var empty BasicStat` — the zero value of `BasicStat` (empty path,
zero size, zero time, unspecified file type). -/
def BasicStat.empty : BasicStat :=
  { Path := "", Size := 0, Modified := 0, FileType := FileTypeUnspecified }

/-- Go: `func (b BasicStat) ToJsonObj(t2s FileTypeToString) BasicStatJson`. -/
def BasicStat.ToJsonObj (b : BasicStat) (t2s : FileTypeToString) : BasicStatJson :=
  { Path := b.Path
  , Size := b.Size
  , Modified := UnixtimeUs.ToTime b.Modified
  , FileType := t2s b.FileType
  }

/-- Go: `func (b BasicStat) WithFullPath(f string) BasicStat`. -/
def BasicStat.WithFullPath (b : BasicStat) (f : String) : BasicStat :=
  { b with Path := f }

/-- Model of Go `fs.FileInfo` as the source consumes it: `Size()`,
`ModTime().UnixMicro()` and `Mode()`. -/
structure FileInfo where
  size : Int
  modTimeUs : Int
  mode : FileMode
  deriving DecidableEq, Repr

/-- Go: `func (i FileInfo) ToBasicStat() BasicStat` — raw metadata carries
no path, so `Path` is left empty. -/
def FileInfo.ToBasicStat (i : FileInfo) : BasicStat :=
  { Path := ""
  , Size := i.size
  , Modified := i.modTimeUs
  , FileType := i.mode.ToFileType
  }

/-- Go: `type FilenameToBasicStat func(string) (BasicStat, error)` — a Go
`(value, error)` pair becomes a value paired with an optional error. -/
abbrev FilenameToBasicStat := String → BasicStat × Option Err

/-- Go: `type Root struct{ *os.Root }` — the open sandbox-root handle,
modelled by the resolution function its `Stat` method denotes. -/
structure Root where
  stat : String → Except Err FileInfo

/-- Go: `func (r Root) NameToInfo(fullpath string) (fs.FileInfo, error)`,
which returns `r.Root.Stat(fullpath)`. -/
def Root.NameToInfo (r : Root) (fullpath : String) : Except Err FileInfo :=
  r.stat fullpath

/-- Go: `func (r Root) NameToBasicStat(fullpath string) (BasicStat, error)`:
on error returns the zero-value record with the error; on success stamps the
caller-supplied name into the record. -/
def Root.NameToBasicStat (r : Root) (fullpath : String) : BasicStat × Option Err :=
  match r.NameToInfo fullpath with
  | .error e => (BasicStat.empty, some e)
  | .ok fi => ((fi.ToBasicStat).WithFullPath fullpath, none)

/-- Go: `func (r Root) ToFilenameToBasicStat() FilenameToBasicStat`. -/
def Root.ToFilenameToBasicStat (r : Root) : FilenameToBasicStat :=
  r.NameToBasicStat

/-- Go: `func (i FilenameToBasicStat) NamesToBasicStats(names iter.Seq[string])
iter.Seq2[BasicStat, error]` — yields `i(name)` for each name in order; the
fully consumed sequence is the elementwise image of the input list. -/
def FilenameToBasicStat.NamesToBasicStats (i : FilenameToBasicStat)
    (names : List String) : List (BasicStat × Option Err) :=
  names.map i

/-- Go: `func (c FileTypeToString) BasicStatsToWriter(wtr io.Writer)` — the
returned closure encodes each successful record as one JSON line and stops
at the first error result, returning it. Modelled by the list of encoded
objects written (already-written lines are never retracted) paired with the
returned error. -/
def FileTypeToString.BasicStatsToWriter (c : FileTypeToString) :
    List (BasicStat × Option Err) → List BasicStatJson × Option Err
  | [] => ([], none)
  | (_, some e) :: _ => ([], some e)
  | (s, none) :: rest =>
    let r := c.BasicStatsToWriter rest
    (s.ToJsonObj c :: r.1, r.2)

/-- A node of the modelled sandbox filesystem: either an ordinary entry with
its metadata (files, directories, devices — distinguished by the mode bits)
or a symbolic link with its textual target. -/
inductive FsNode where
  | entry (info : FileInfo)
  | symlink (target : String)
  deriving DecidableEq, Repr

/-- Modelled from the spec: the sandbox-root directory subtree that
`os.Root` (Go standard library, not part of this repository's sources)
bounds resolution to. Entries are keyed by their resolved component path
relative to the root. -/
structure Fs where
  entries : List (List String × FsNode)
  rootInfo : FileInfo

/-- Lookup of a resolved component path in the modelled subtree. -/
def Fs.find (fs : Fs) (path : List String) : Option FsNode :=
  (fs.entries.find? (fun p => p.1 == path)).map (fun p => p.2)

/-- Splitting a character list on the path separator. -/
def splitChars : List Char → List Char → List String
  | [], acc => [String.mk acc.reverse]
  | ch :: cs, acc =>
    if ch = '/' then String.mk acc.reverse :: splitChars cs []
    else splitChars cs (ch :: acc)

/-- Path components of a relative name: split on the separator, dropping
empty and `.` components. -/
def splitPath (s : String) : List String :=
  (splitChars s.toList []).filter (fun c => c ≠ "" && c ≠ ".")

/-- Modelled from the spec: component-wise sandboxed resolution as performed
by `os.Root.Stat` (Go standard library, not in this repository's sources).
`stack` is the already-resolved path relative to the root; a `..` component
pops it and escapes the root when it is already empty; a symlink component
is dereferenced relative to its directory, an absolute target escapes the
root, and every step consumes fuel so that symlink chains terminate
(exhaustion is an I/O-level failure, as for ELOOP). -/
def Fs.resolveComps (fs : Fs) : Nat → List String → List String → Except Err (List String)
  | _, stack, [] => .ok stack
  | 0, _, _ :: _ => .error .statUnavailable
  | fuel + 1, stack, comp :: rest =>
    if comp = ".." then
      match stack with
      | [] => .error .pathEscapesRoot
      | _ :: _ => fs.resolveComps fuel stack.dropLast rest
    else
      match fs.find (stack ++ [comp]) with
      | some (.symlink target) =>
        if target.toList.head? = some '/' then .error .pathEscapesRoot
        else fs.resolveComps fuel stack (splitPath target ++ rest)
      | _ => fs.resolveComps fuel (stack ++ [comp]) rest

/-- Modelled from the spec: `os.Root.Stat` over the modelled subtree —
resolve the name's components inside the root, then look the resolved path
up (`NameNotFound` when no entry exists there). -/
def Fs.rootStat (fs : Fs) (name : String) : Except Err FileInfo :=
  match fs.resolveComps 4096 [] (splitPath name) with
  | .error e => .error e
  | .ok [] => .ok fs.rootInfo
  | .ok path =>
    match fs.find path with
    | some (.entry info) => .ok info
    | some (.symlink _) => .error .statUnavailable
    | none => .error .nameNotFound

/-- The sandbox-root handle over the modelled subtree: its `Stat` is the
modelled sandboxed resolution. -/
def Fs.toRoot (fs : Fs) : Root := ⟨fs.rootStat⟩

section BitLemmas

/-- Masking with a single bit is zero exactly when that bit is clear. -/
lemma land_two_pow_eq_zero (x i : Nat) : x &&& 2 ^ i = 0 ↔ x.testBit i = false := by
  rw [Nat.and_two_pow]
  cases h : x.testBit i <;> simp [h, Nat.pow_eq_zero]

/-- Masking with a single bit is nonzero exactly when that bit is set. -/
lemma land_two_pow_ne_zero (x i : Nat) : x &&& 2 ^ i ≠ 0 ↔ x.testBit i = true := by
  rw [ne_eq, land_two_pow_eq_zero]
  cases h : x.testBit i <;> simp [h]

/-- A bitwise or is zero exactly when both sides are. -/
lemma nat_or_eq_zero (a b : Nat) : a ||| b = 0 ↔ a = 0 ∧ b = 0 := by
  constructor
  · intro h
    constructor
    · apply Nat.zero_of_testBit_eq_false
      intro i
      have := congrArg (fun t => t.testBit i) h
      simp only [Nat.testBit_or, Nat.zero_testBit, Bool.or_eq_false_iff] at this
      exact this.1
    · apply Nat.zero_of_testBit_eq_false
      intro i
      have := congrArg (fun t => t.testBit i) h
      simp only [Nat.testBit_or, Nat.zero_testBit, Bool.or_eq_false_iff] at this
      exact this.2
  · rintro ⟨rfl, rfl⟩
    rfl

end BitLemmas

section ModeBitLemmas

/-- The predicate `IsRegular` tests that every type bit of the mask is clear. -/
lemma isRegular_eq_testBits (m : FileMode) :
    m.IsRegular = (!m.mode.testBit 31 && !m.mode.testBit 27 && !m.mode.testBit 26 &&
      !m.mode.testBit 25 && !m.mode.testBit 24 && !m.mode.testBit 21 && !m.mode.testBit 19) := by
  rw [Bool.eq_iff_iff]
  simp only [FileMode.IsRegular, ModeType, ModeDir, ModeSymlink, ModeNamedPipe, ModeSocket,
    ModeDevice, ModeCharDevice, ModeIrregular, beq_iff_eq, Nat.and_or_distrib_left,
    nat_or_eq_zero, land_two_pow_eq_zero, Bool.and_eq_true, Bool.not_eq_true']
  tauto

/-- The predicate `IsDir` tests bit 31. -/
lemma isDir_eq_testBit (m : FileMode) : m.IsDir = m.mode.testBit 31 := by
  rw [Bool.eq_iff_iff]
  simp only [FileMode.IsDir, ModeDir, bne_iff_ne]
  exact land_two_pow_ne_zero m.mode 31

/-- The predicate `IsSymlink` tests bit 27. -/
lemma isSymlink_eq_testBit (m : FileMode) : m.IsSymlink = m.mode.testBit 27 := by
  rw [Bool.eq_iff_iff]
  simp only [FileMode.IsSymlink, ModeSymlink, bne_iff_ne]
  exact land_two_pow_ne_zero m.mode 27

/-- The predicate `IsNamedPipe` tests bit 25. -/
lemma isNamedPipe_eq_testBit (m : FileMode) : m.IsNamedPipe = m.mode.testBit 25 := by
  rw [Bool.eq_iff_iff]
  simp only [FileMode.IsNamedPipe, ModeNamedPipe, bne_iff_ne]
  exact land_two_pow_ne_zero m.mode 25

/-- The predicate `IsSocket` tests bit 24. -/
lemma isSocket_eq_testBit (m : FileMode) : m.IsSocket = m.mode.testBit 24 := by
  rw [Bool.eq_iff_iff]
  simp only [FileMode.IsSocket, ModeSocket, bne_iff_ne]
  exact land_two_pow_ne_zero m.mode 24

/-- The predicate `IsCharDevice` tests bit 21 alone: the device bit is not consulted. -/
lemma isCharDevice_eq_testBit (m : FileMode) : m.IsCharDevice = m.mode.testBit 21 := by
  rw [Bool.eq_iff_iff]
  simp only [FileMode.IsCharDevice, ModeCharDevice, bne_iff_ne]
  exact land_two_pow_ne_zero m.mode 21

/-- The predicate `IsDevice` tests bit 26. -/
lemma isDevice_eq_testBit (m : FileMode) : m.IsDevice = m.mode.testBit 26 := by
  rw [Bool.eq_iff_iff]
  simp only [FileMode.IsDevice, ModeDevice, bne_iff_ne]
  exact land_two_pow_ne_zero m.mode 26

/-- The predicate `IsBlockDevice` tests bit 26 set and bit 21 clear. -/
lemma isBlockDevice_eq_testBits (m : FileMode) :
    m.IsBlockDevice = (m.mode.testBit 26 && !m.mode.testBit 21) := by
  rw [FileMode.IsBlockDevice, isDevice_eq_testBit, isCharDevice_eq_testBit]

end ModeBitLemmas

/-- The classification precedence exactly as the specification words it:
regular file, directory, symbolic link, named pipe, socket, character
device (device bit set AND character bit set), block device (device bit set
and character bit not set), otherwise unspecified; first match wins. Stated
from the spec for comparison against `FileMode.ToFileType`. -/
def ToFileTypeClaimedOrder (m : FileMode) : FileType :=
  if m.IsRegular then FileTypeRglr
  else if m.IsDir then FileTypeFldr
  else if m.IsSymlink then FileTypeSyml
  else if m.IsNamedPipe then FileTypePipe
  else if m.IsSocket then FileTypeSock
  else if m.IsDevice && m.IsCharDevice then FileTypeChar
  else if m.IsDevice && !m.IsCharDevice then FileTypeBlck
  else FileTypeUnspecified

/-- The classification precedence as amended: the character-device test
consults only the character-device bit (bit 21), not the device bit; the
block-device test requires the device bit (bit 26) set and the
character-device bit clear; conditions are stated bitwise, first match
wins. -/
def ToFileTypeAmendedOrder (m : FileMode) : FileType :=
  if !m.mode.testBit 31 && !m.mode.testBit 27 && !m.mode.testBit 26 && !m.mode.testBit 25 &&
      !m.mode.testBit 24 && !m.mode.testBit 21 && !m.mode.testBit 19 then FileTypeRglr
  else if m.mode.testBit 31 then FileTypeFldr
  else if m.mode.testBit 27 then FileTypeSyml
  else if m.mode.testBit 25 then FileTypePipe
  else if m.mode.testBit 24 then FileTypeSock
  else if m.mode.testBit 21 then FileTypeChar
  else if m.mode.testBit 26 && !m.mode.testBit 21 then FileTypeBlck
  else FileTypeUnspecified

/-- C3 counterexample: on the mode with only the character-device bit set
(bit 21, no device bit), the code classifies character device, while the
claimed precedence (character device = device bit AND character bit)
matches no category and yields unspecified. -/
theorem toFileType_claimed_order_counterexample :
    FileMode.ToFileType ⟨2 ^ 21⟩ = FileTypeChar ∧
    ToFileTypeClaimedOrder ⟨2 ^ 21⟩ = FileTypeUnspecified ∧
    FileMode.ToFileType ⟨2 ^ 21⟩ ≠ ToFileTypeClaimedOrder ⟨2 ^ 21⟩ := by
  refine ⟨?_, ?_, ?_⟩ <;> decide

/-- C3 (amended): for every platform file-mode bit pattern, classification
evaluates the categories in the exact precedence order regular file,
directory, symbolic link, named pipe, socket, character device
(character-device bit set, device bit not consulted), block device (device
bit set and character-device bit not set), otherwise unspecified; the first
matching category wins. -/
theorem toFileType_eq_amended_order (m : FileMode) :
    m.ToFileType = ToFileTypeAmendedOrder m := by
  unfold FileMode.ToFileType ToFileTypeAmendedOrder
  rw [isRegular_eq_testBits, isDir_eq_testBit, isSymlink_eq_testBit, isNamedPipe_eq_testBit,
    isSocket_eq_testBit, isCharDevice_eq_testBit, isBlockDevice_eq_testBits]

/-- C4: every platform file-mode bit pattern classifies to one of exactly
eight enumerated codes; a pattern matching no defined category yields the
unspecified code and hence the label "UNKNOWN FILE TYPE"; classification is
a total function and never produces an error. -/
theorem toFileType_closed_enumeration (m : FileMode) :
    m.ToFileType ∈ [FileTypeUnspecified, FileTypeRglr, FileTypeFldr, FileTypeSyml,
      FileTypePipe, FileTypeSock, FileTypeChar, FileTypeBlck] ∧
    ((m.IsRegular = false ∧ m.IsDir = false ∧ m.IsSymlink = false ∧ m.IsNamedPipe = false ∧
        m.IsSocket = false ∧ m.IsCharDevice = false ∧ m.IsBlockDevice = false) →
      m.ToFileType = FileTypeUnspecified ∧
        FileTypeToStringDefault m.ToFileType = "UNKNOWN FILE TYPE") := by
  constructor
  · unfold FileMode.ToFileType
    split
    · simp
    split
    · simp
    split
    · simp
    split
    · simp
    split
    · simp
    split
    · simp
    split
    · simp
    · simp
  · rintro ⟨h1, h2, h3, h4, h5, h6, h7⟩
    have hu : m.ToFileType = FileTypeUnspecified := by
      unfold FileMode.ToFileType
      rw [h1, h2, h3, h4, h5, h6, h7]
      rfl
    exact ⟨hu, by rw [hu]; rfl⟩

/-- C4 witness: the irregular-bit-only pattern (bit 19) matches no category,
classifies as unspecified and labels as "UNKNOWN FILE TYPE". -/
theorem toFileType_closed_enumeration_witness :
    FileMode.ToFileType ⟨2 ^ 19⟩ = FileTypeUnspecified ∧
    FileTypeToStringDefault (FileMode.ToFileType ⟨2 ^ 19⟩) = "UNKNOWN FILE TYPE" :=
  (toFileType_closed_enumeration ⟨2 ^ 19⟩).2
    ⟨by decide, by decide, by decide, by decide, by decide, by decide, by decide⟩

/-- C5: the default labeler maps the eight codes per the fixed table, and
every code outside the table falls back to the "UNKNOWN FILE TYPE" label
rather than failing. -/
theorem default_labeler_table (c : FileType)
    (h : c ∉ ([FileTypeUnspecified, FileTypeRglr, FileTypeFldr, FileTypeSyml, FileTypePipe,
      FileTypeSock, FileTypeChar, FileTypeBlck] : List FileType)) :
    FileTypeToStringDefault FileTypeUnspecified = "UNKNOWN FILE TYPE" ∧
    FileTypeToStringDefault FileTypeRglr = "regular file" ∧
    FileTypeToStringDefault FileTypeFldr = "directory" ∧
    FileTypeToStringDefault FileTypeSyml = "symbolic link" ∧
    FileTypeToStringDefault FileTypePipe = "FIFO" ∧
    FileTypeToStringDefault FileTypeSock = "socket" ∧
    FileTypeToStringDefault FileTypeChar = "character special" ∧
    FileTypeToStringDefault FileTypeBlck = "block special" ∧
    FileTypeToStringDefault c = "UNKNOWN FILE TYPE" := by
  simp only [List.mem_cons, List.not_mem_nil, or_false, not_or] at h
  obtain ⟨h0, h100, h105, h102, h106, h109, h103, h104⟩ := h
  refine ⟨by decide, by decide, by decide, by decide, by decide, by decide, by decide,
    by decide, ?_⟩
  simp only [FileTypeToStringDefault, FileTypeToStringMapDefault,
    FileTypeToStringMap.ToFileTypeToString, FileTypeToStringMap.get?, fileTypeToStringMap,
    FileTypeUnspecified, FileTypeRglr, FileTypeFldr, FileTypeSyml, FileTypePipe, FileTypeSock,
    FileTypeChar, FileTypeBlck, List.find?] at h0 h100 h105 h102 h106 h109 h103 h104 ⊢
  rw [show ((0 : Int) == c) = false by simpa using (Ne.symm h0),
    show ((104 : Int) == c) = false by simpa using (Ne.symm h104),
    show ((103 : Int) == c) = false by simpa using (Ne.symm h103),
    show ((105 : Int) == c) = false by simpa using (Ne.symm h105),
    show ((100 : Int) == c) = false by simpa using (Ne.symm h100),
    show ((102 : Int) == c) = false by simpa using (Ne.symm h102),
    show ((106 : Int) == c) = false by simpa using (Ne.symm h106),
    show ((109 : Int) == c) = false by simpa using (Ne.symm h109)]
  rfl

/-- C5 witness: the out-of-table code 1 is labeled "UNKNOWN FILE TYPE". -/
theorem default_labeler_table_witness :
    FileTypeToStringDefault 1 = "UNKNOWN FILE TYPE" :=
  (default_labeler_table 1 (by decide)).2.2.2.2.2.2.2.2

/-- C9: encoding a record with size 42, a fixed microsecond timestamp `m`
and type directory via `ToJsonObj` with the default labeler produces a JSON
object whose `size` field is 42, whose `file_type` field is "directory" and
whose `modified_time` field is the calendar timestamp equivalent to `m`
microseconds since the Unix epoch. -/
theorem toJsonObj_directory_fields (p : String) (m : UnixtimeUs) :
    BasicStat.ToJsonObj { Path := p, Size := 42, Modified := m, FileType := FileTypeFldr }
        FileTypeToStringDefault =
      { Path := p, Size := 42, Modified := UnixtimeUs.ToTime m, FileType := "directory" } := by
  rfl

/-- C8: for every name that resolves successfully, the returned record's
`Path` equals the input name verbatim, with `Size` and `Modified` taken
from the queried metadata (and the file type classified from its mode). -/
theorem nameToBasicStat_success_verbatim_path (r : Root) (name : String) (fi : FileInfo)
    (h : r.NameToInfo name = .ok fi) :
    r.NameToBasicStat name =
      ({ Path := name, Size := fi.size, Modified := fi.modTimeUs,
         FileType := fi.mode.ToFileType }, none) := by
  unfold Root.NameToBasicStat
  rw [h]
  rfl

/-- C8 witness: a concrete root resolving "a/b" to concrete metadata yields
the record with path "a/b" verbatim and that metadata. -/
theorem nameToBasicStat_success_verbatim_path_witness :
    Root.NameToBasicStat ⟨fun _ => .ok ⟨7, 99, ⟨0⟩⟩⟩ "a/b" =
      ({ Path := "a/b", Size := 7, Modified := 99, FileType := FileTypeRglr }, none) := by
  have h := nameToBasicStat_success_verbatim_path ⟨fun _ => .ok ⟨7, 99, ⟨0⟩⟩⟩ "a/b" ⟨7, 99, ⟨0⟩⟩ rfl
  rw [h]
  decide

/-- C10: for every name whose resolution fails, `NameToBasicStat` returns
the zero-value record (empty path, size 0, modified 0, unspecified type)
together with the error; no partial metadata is carried. -/
theorem nameToBasicStat_error_zero_record (r : Root) (name : String) (e : Err)
    (h : r.NameToInfo name = .error e) :
    r.NameToBasicStat name =
      ({ Path := "", Size := 0, Modified := 0, FileType := FileTypeUnspecified }, some e) := by
  unfold Root.NameToBasicStat
  rw [h]
  rfl

/-- C10 witness: a concrete root failing on "x" yields the zero-value
record paired with the error. -/
theorem nameToBasicStat_error_zero_record_witness :
    Root.NameToBasicStat ⟨fun _ => .error .nameNotFound⟩ "x" =
      ({ Path := "", Size := 0, Modified := 0, FileType := FileTypeUnspecified },
        some Err.nameNotFound) :=
  nameToBasicStat_error_zero_record ⟨fun _ => .error .nameNotFound⟩ "x" .nameNotFound rfl

/-- C6: for every finite input name sequence, the fully consumed stream of
`NamesToBasicStats` has exactly one (record, error) result per input name,
in input order: its length equals the input length and its k-th result is
the resolution of the k-th name. -/
theorem namesToBasicStats_one_result_per_name (i : FilenameToBasicStat)
    (names : List String) :
    (i.NamesToBasicStats names).length = names.length ∧
    ∀ k : Nat, (i.NamesToBasicStats names).get? k = (names.get? k).map i := by
  constructor
  · simp [FilenameToBasicStat.NamesToBasicStats]
  · intro k
    simp [FilenameToBasicStat.NamesToBasicStats]

/-- C2: for an input sequence [a, b, d] where a resolves successfully and b
fails, the writer writes exactly the one encoded line for a, writes nothing
for b or d, and returns b's error; the line for a remains in the output. -/
theorem writer_partial_output_on_failure (i : FilenameToBasicStat) (c : FileTypeToString)
    (a b d : String) (sa : BasicStat) (eb : Err)
    (ha : i a = (sa, none)) (hb : (i b).2 = some eb) :
    c.BasicStatsToWriter (i.NamesToBasicStats [a, b, d]) =
      ([sa.ToJsonObj c], some eb) := by
  have hbn : i b = ((i b).1, some eb) := by rw [← hb]
  simp only [FilenameToBasicStat.NamesToBasicStats, List.map_cons, List.map_nil]
  rw [ha, hbn]
  rfl

/-- C2 witness: with a concrete resolver succeeding on "a" and failing
elsewhere, the run over ["a", "b", "c"] writes exactly one line (the record
for "a") and returns the error of "b". -/
theorem writer_partial_output_on_failure_witness :
    FileTypeToString.BasicStatsToWriter FileTypeToStringDefault
        (FilenameToBasicStat.NamesToBasicStats
          (fun n => if n = "a" then ((⟨"a", 1, 2, FileTypeRglr⟩ : BasicStat), none)
            else (BasicStat.empty, some Err.nameNotFound))
          ["a", "b", "c"]) =
      ([(⟨"a", 1, UnixtimeUs.ToTime 2, "regular file"⟩ : BasicStatJson)],
        some Err.nameNotFound) := by
  have h := writer_partial_output_on_failure
    (fun n => if n = "a" then ((⟨"a", 1, 2, FileTypeRglr⟩ : BasicStat), none)
      else (BasicStat.empty, some Err.nameNotFound))
    FileTypeToStringDefault "a" "b" "c" ⟨"a", 1, 2, FileTypeRglr⟩
    Err.nameNotFound (by decide) (by decide)
  rw [h]
  decide

/-- Helper: the writer's result over a fully mapped name list is unchanged
by anything after a name whose resolution carries an error. -/
lemma writer_map_stops_after_error (i : FilenameToBasicStat) (c : FileTypeToString)
    (n : String) (e : Err) (hb : (i n).2 = some e) :
    ∀ (pre post : List String),
      c.BasicStatsToWriter (List.map i (pre ++ n :: post)) =
        c.BasicStatsToWriter (List.map i (pre ++ [n])) := by
  intro pre post
  induction pre with
  | nil =>
    have hn : i n = ((i n).1, some e) := by rw [← hb]
    simp only [List.nil_append, List.map_cons, List.map_nil]
    rw [hn]
    rfl
  | cons p ps ih =>
    simp only [List.cons_append, List.map_cons] at ih ⊢
    have hp : i p = ((i p).1, (i p).2) := rfl
    cases hsnd : (i p).2 with
    | none =>
      have hpn : i p = ((i p).1, none) := by rw [← hsnd]
      rw [hpn]
      show ((i p).1.ToJsonObj c :: (c.BasicStatsToWriter (List.map i (ps ++ n :: post))).1,
          (c.BasicStatsToWriter (List.map i (ps ++ n :: post))).2) = _
      rw [ih]
      rfl
    | some e' =>
      have hpe : i p = ((i p).1, some e') := by rw [← hsnd]
      rw [hpe]
      rfl

/-- C7: the stream stops at the first error — once a result carrying an
error is produced, no later name influences the run: the writer's output
and returned error over any suffix beyond the failing name equal those of
the run truncated at the failing name. -/
theorem stream_stops_on_first_error (i : FilenameToBasicStat) (c : FileTypeToString)
    (n : String) (e : Err) (hb : (i n).2 = some e) (pre post : List String) :
    c.BasicStatsToWriter (i.NamesToBasicStats (pre ++ n :: post)) =
      c.BasicStatsToWriter (i.NamesToBasicStats (pre ++ [n])) :=
  writer_map_stops_after_error i c n e hb pre post

/-- C7 witness: with a resolver failing on every name, the run over
["x", "y"] equals the run truncated at "x". -/
theorem stream_stops_on_first_error_witness :
    FileTypeToString.BasicStatsToWriter FileTypeToStringDefault
        (FilenameToBasicStat.NamesToBasicStats
          (fun _ => (BasicStat.empty, some Err.statUnavailable)) (["x"] ++ ["y"])) =
      FileTypeToString.BasicStatsToWriter FileTypeToStringDefault
        (FilenameToBasicStat.NamesToBasicStats
          (fun _ => (BasicStat.empty, some Err.statUnavailable)) ["x"]) := by
  have h := stream_stops_on_first_error
    (fun _ => (BasicStat.empty, some Err.statUnavailable)) FileTypeToStringDefault
    "x" Err.statUnavailable rfl [] ["y"]
  exact h

/-- Writer equation: the empty stream writes nothing and returns no error. -/
lemma writer_nil (c : FileTypeToString) :
    c.BasicStatsToWriter [] = ([], none) := rfl

/-- Writer equation: a leading error result writes nothing and returns the
error. -/
lemma writer_cons_err (c : FileTypeToString) (s : BasicStat) (e : Err)
    (rest : List (BasicStat × Option Err)) :
    c.BasicStatsToWriter ((s, some e) :: rest) = ([], some e) := rfl

/-- Writer equation: a leading success is encoded and prepended. -/
lemma writer_cons_ok (c : FileTypeToString) (s : BasicStat)
    (rest : List (BasicStat × Option Err)) :
    c.BasicStatsToWriter ((s, none) :: rest) =
      (s.ToJsonObj c :: (c.BasicStatsToWriter rest).1,
        (c.BasicStatsToWriter rest).2) := rfl

/-- Helper: every JSON object the writer emits for a root-resolved name
list carries, as its path, a name of the list whose resolution succeeded. -/
lemma writer_output_paths_resolved (c : FileTypeToString) (r : Root) :
    ∀ (names : List String) (j : BasicStatJson),
      j ∈ (c.BasicStatsToWriter (List.map r.NameToBasicStat names)).1 →
      ∃ n ∈ names, (∃ fi, r.NameToInfo n = .ok fi) ∧ j.Path = n := by
  intro names
  induction names with
  | nil =>
    intro j hj
    simp [writer_nil] at hj
  | cons n rest ih =>
    intro j hj
    rw [List.map_cons] at hj
    cases hstat : r.NameToInfo n with
    | error e =>
      have hn : r.NameToBasicStat n = (BasicStat.empty, some e) := by
        unfold Root.NameToBasicStat
        rw [hstat]
      rw [hn, writer_cons_err] at hj
      simp at hj
    | ok fi =>
      have hn : r.NameToBasicStat n = ((fi.ToBasicStat).WithFullPath n, none) := by
        unfold Root.NameToBasicStat
        rw [hstat]
      rw [hn, writer_cons_ok] at hj
      rcases List.mem_cons.mp hj with hEq | hTail
      · refine ⟨n, List.mem_cons_self n rest, ⟨fi, hstat⟩, ?_⟩
        rw [hEq]
        rfl
      · obtain ⟨n', hn', hok, hpath⟩ := ih j hTail
        exact ⟨n', List.mem_cons_of_mem n hn', hok, hpath⟩

/-- C1: for every name whose sandboxed resolution escapes the root (a `..`
traversal past the root or a symlink target outside it, as modelled by
`Fs.rootStat`), resolution fails with `pathEscapesRoot`, `NameToBasicStat`
returns only the zero record with that error, and no JSON object the
pipeline emits for any input list ever carries that name as its path. -/
theorem escape_rejected_no_record (fs : Fs) (name : String)
    (h : fs.toRoot.NameToInfo name = .error .pathEscapesRoot)
    (c : FileTypeToString) (names : List String) :
    fs.toRoot.NameToBasicStat name = (BasicStat.empty, some Err.pathEscapesRoot) ∧
    ∀ j ∈ (c.BasicStatsToWriter
        ((fs.toRoot.ToFilenameToBasicStat).NamesToBasicStats names)).1,
      j.Path ≠ name := by
  constructor
  · unfold Root.NameToBasicStat
    rw [h]
  · intro j hj hPath
    have hj' : j ∈ (c.BasicStatsToWriter (List.map fs.toRoot.NameToBasicStat names)).1 := hj
    obtain ⟨n, _, ⟨fi, hok⟩, hjp⟩ := writer_output_paths_resolved c fs.toRoot names j hj'
    have hnn : n = name := by rw [← hjp, hPath]
    rw [hnn, h] at hok
    exact Except.noConfusion hok

/-- C1 witness: in the modelled empty subtree the name ".." escapes the
root; its resolution fails with `pathEscapesRoot` and the pipeline run over
[".."] emits no object whose path is "..". -/
theorem escape_rejected_no_record_witness :
    Root.NameToBasicStat (Fs.toRoot ⟨[], ⟨0, 0, ⟨ModeDir⟩⟩⟩) ".." =
      (BasicStat.empty, some Err.pathEscapesRoot) ∧
    ∀ j ∈ (FileTypeToString.BasicStatsToWriter FileTypeToStringDefault
        ((Root.ToFilenameToBasicStat (Fs.toRoot ⟨[], ⟨0, 0, ⟨ModeDir⟩⟩⟩)).NamesToBasicStats
          [".."])).1,
      j.Path ≠ ".." :=
  escape_rejected_no_record ⟨[], ⟨0, 0, ⟨ModeDir⟩⟩⟩ ".." rfl FileTypeToStringDefault [".."]
